import Mathlib

/-!
Verification of the Augmentry SDK repository: a dual-mode (sync/async) HTTP
API client façade, its release automation (`release.py`) and its PyPI upload
script (`upload_to_pypi.py`).

The release and upload scripts are embedded directly from the Python source.
The client façade itself (the `augmentry` package) is not among the source
files; it is modelled from the specification, as noted on each definition.
Strings are manipulated through explicit, structurally recursive helpers on
`List Char` so that every definition evaluates inside the kernel.
-/

namespace Augmentry

/-! ## String helpers (executable models of the Python string operations) -/

/-- `charsMatch needle hay` is true when `needle` occurs at the very start of
`hay` (the test Python performs at each position during `in` and `replace`). -/
def charsMatch : List Char → List Char → Bool
  | [], _ => true
  | _ :: _, [] => false
  | c :: cs, d :: ds => c == d && charsMatch cs ds

/-- `charsContain needle hay` is true when `needle` occurs somewhere in `hay`:
the model of Python's `needle in hay` substring test. -/
def charsContain (needle : List Char) : List Char → Bool
  | [] => charsMatch needle []
  | c :: t => charsMatch needle (c :: t) || charsContain needle t

/-- Model of Python's `pat in s` substring membership. -/
def strContains (s pat : String) : Bool :=
  charsContain pat.data s.data

/-- Model of Python's `str.endswith`. -/
def strEndsWith (s suf : String) : Bool :=
  charsMatch suf.data.reverse s.data.reverse

/-- Fuel-driven worker for `charsReplace`; each step either copies one
character or consumes a full occurrence of `needle` (at least one character),
so fuel equal to the haystack length always suffices. -/
def charsReplaceFuel (needle rep : List Char) : Nat → List Char → List Char
  | 0, hay => hay
  | _ + 1, [] => []
  | fuel + 1, c :: t =>
    if !needle.isEmpty && charsMatch needle (c :: t) then
      rep ++ charsReplaceFuel needle rep fuel ((c :: t).drop needle.length)
    else
      c :: charsReplaceFuel needle rep fuel t

/-- Left-to-right replacement of every non-overlapping occurrence of `needle`
by `rep`, the model of Python's `str.replace`.  An empty `needle` replaces
nothing; the version patterns this development applies it to are never empty. -/
def charsReplace (needle rep hay : List Char) : List Char :=
  charsReplaceFuel needle rep hay.length hay

/-- Model of Python's `s.replace(pat, rep)`. -/
def strReplace (s pat rep : String) : String :=
  ⟨charsReplace pat.data rep.data s.data⟩

/-- Model of Python's `s.split('.')`: splitting at every dot, keeping empty
components, so the empty string splits into one empty component. -/
def splitOnDot : List Char → List (List Char)
  | [] => [[]]
  | c :: t =>
    let r := splitOnDot t
    if c == '.' then [] :: r
    else
      match r with
      | [] => [[c]]
      | h :: rest => (c :: h) :: rest

/-- Whitespace characters stripped by Python's `int()` before parsing. -/
def isSpaceChar (c : Char) : Bool :=
  c == ' ' || c == '\t' || c == '\n' || c == '\r' || c == '\x0b' || c == '\x0c'

/-- Strip leading and trailing whitespace, as Python's `int()` does. -/
def trimChars (cs : List Char) : List Char :=
  ((cs.dropWhile isSpaceChar).reverse.dropWhile isSpaceChar).reverse

/-- Decimal value of a non-empty all-digit character list. -/
def digitsVal? (cs : List Char) : Option Nat :=
  if cs.isEmpty then none
  else if cs.all Char.isDigit then
    some (cs.foldl (fun acc c => acc * 10 + (c.toNat - 48)) 0)
  else none

/-- Model of Python's `int(s)` on decimal literals: surrounding whitespace is
stripped, an optional sign is accepted, the rest must be a non-empty digit
string (digit-group underscores are not modelled; the version components the
scripts parse never contain them). -/
def pyInt? (s : String) : Option Int :=
  match trimChars s.data with
  | '-' :: rest => (digitsVal? rest).map (fun n => -(n : Int))
  | '+' :: rest => (digitsVal? rest).map (fun n => (n : Int))
  | cs => (digitsVal? cs).map (fun n => (n : Int))

/-! ## `release.py`: `increment_version` -/

/-- Render of `f"{major}.{minor}.{patch}"` for integer components. -/
def renderVersion (a b c : Int) : String :=
  toString a ++ "." ++ toString b ++ "." ++ toString c

/-- Core of `increment_version` after `map(int, version.split('.'))`: the
destructuring `major, minor, patch = ...` succeeds only on exactly three
successfully parsed components; any other shape raises, modelled as `none`. -/
def incrCore (comps : List (Option Int)) (part : String) : Option String :=
  match comps with
  | [some major, some minor, some patch] =>
    if part = "major" then some (renderVersion (major + 1) 0 0)
    else if part = "minor" then some (renderVersion major (minor + 1) 0)
    else if part = "patch" then some (renderVersion major minor (patch + 1))
    else some (renderVersion major minor patch)
  | _ => none

/-- The components `map(int, version.split('.'))` produces: the version text
split at every dot, each piece parsed as a Python `int`. -/
def versionComponents (version : String) : List (Option Int) :=
  (splitOnDot version.data).map (fun cs => pyInt? (⟨cs⟩ : String))

/-- Embedding of `increment_version` from `release.py`: split the version at
dots, parse each component with `int`, bump the requested part, and re-render
with an f-string; a parse or arity failure raises (`none`). -/
def increment_version (version part : String) : Option String :=
  incrCore (versionComponents version) part

/-! ## `release.py`: `update_version_in_file` -/

/-- The state of one file on disk: whether the path exists, and its text. -/
structure FileState where
  present : Bool
  content : String
deriving Repr, DecidableEq

/-- The search pattern and replacement `update_version_in_file` selects for a
path, keyed on the path's suffix exactly as the Python `endswith` chain does;
`none` for any other path (the function then returns `False`). -/
def patternFor (filepath oldVersion newVersion : String) : Option (String × String) :=
  if strEndsWith filepath "__init__.py" then
    some ("__version__ = \"" ++ oldVersion ++ "\"",
          "__version__ = \"" ++ newVersion ++ "\"")
  else if strEndsWith filepath "setup.py" then
    some ("version=\"" ++ oldVersion ++ "\"", "version=\"" ++ newVersion ++ "\"")
  else if strEndsWith filepath "pyproject.toml" then
    some ("version = \"" ++ oldVersion ++ "\"", "version = \"" ++ newVersion ++ "\"")
  else none

/-- Embedding of `update_version_in_file` from `release.py`: a missing file, an
unrecognized suffix, or an absent pattern returns `False` and leaves the file
untouched; otherwise every occurrence of the pattern is replaced, the file is
rewritten, and `True` is returned. -/
def update_version_in_file (filepath oldVersion newVersion : String)
    (file : FileState) : Bool × FileState :=
  if !file.present then (false, file)
  else
    match patternFor filepath oldVersion newVersion with
    | none => (false, file)
    | some (pat, rep) =>
      if strContains file.content pat then
        (true, { file with content := strReplace file.content pat rep })
      else
        (false, file)

/-! ## `upload_to_pypi.py`: `check_version_consistency` -/

/-- The three project files `check_version_consistency` inspects; `none`
models a path that does not exist. -/
structure ProjectFiles where
  initPy : Option String
  setupPy : Option String
  pyproject : Option String
deriving Repr, DecidableEq

/-- One step of `check_version_consistency`: a missing file is skipped (the
check passes vacuously); an existing file passes only when it contains its
hardcoded marker. -/
def fileConsistent (file : Option String) (marker : String) : Bool :=
  match file with
  | none => true
  | some content => strContains content marker

/-- Embedding of `check_version_consistency` from `upload_to_pypi.py`: the
function returns `False` at the first existing file that lacks its hardcoded
`1.0.2` marker, and `True` otherwise. -/
def check_version_consistency (files : ProjectFiles) : Bool :=
  fileConsistent files.initPy "__version__ = \"1.0.2\"" &&
  fileConsistent files.setupPy "version=\"1.0.2\"" &&
  fileConsistent files.pyproject "version = \"1.0.2\""

/-! ## Client façade model

The `augmentry` package (the `AugmentryClient` / `SyncAugmentryClient`
classes the examples import) is not among the source files; the definitions
below are modelled from the specification, as each doc comment notes. -/

/-- Modelled from the spec: a JSON value, `raw JSON decoded into nested
mappings/sequences of primitive values (strings, numbers, booleans, nulls)`. -/
inductive Json where
  | null
  | bool (b : Bool)
  | num (n : Int)
  | str (s : String)
  | arr (elems : List Json)
  | obj (fields : List (String × Json))
deriving Repr

/-- First value bound to `key` in a JSON object; `none` on other shapes. -/
def Json.getField : Json → String → Option Json
  | .obj fields, key => fields.lookup key
  | _, _ => none

/-- Modelled from the spec: the lifecycle states of the client handle's
connection resource, `unopened → open → closed`. -/
inductive ClientState where
  | unopened
  | opened
  | closed
deriving Repr, DecidableEq

/-- Modelled from the spec: the client handle `holds the API key, base URL,
and an open or closed connection resource`. -/
structure Handle where
  apiKey : String
  baseUrl : String
  state : ClientState
deriving Repr, DecidableEq

/-- Modelled from the spec: error taxonomy `(a) configuration, (b)
connectivity, (c) HTTP, (d) decoding, (e) usage` — the kinds a call can
surface. -/
inductive ErrorKind where
  | usage
  | connectivity
  | http
  | decoding
deriving Repr, DecidableEq

/-- Modelled from the spec: the single uniform request-failed error,
`carrying the HTTP status and response body when available`. -/
structure ApiError where
  kind : ErrorKind
  status : Option Nat
  body : Option String
deriving Repr, DecidableEq

/-- Modelled from the spec: an HTTP response as the transport hands it to the
client — a status code, the raw body text, and the result of JSON-decoding
that body (`none` when the body is not valid JSON). -/
structure HttpResponse where
  status : Nat
  body : String
  decoded : Option Json

/-- Modelled from the spec: the outcome at the network boundary — a
connectivity failure (DNS/TCP/TLS) or a response from the server. -/
inductive NetworkResult where
  | failure
  | response (r : HttpResponse)

/-- Modelled from the spec: the uniform request path every endpoint method
shares.  A handle that is not open fails fast with a usage error and issues
no request; otherwise exactly one request is issued and the outcome is
normalized: connectivity failure, non-2xx status carrying status and body,
invalid JSON as a decoding error, or the decoded JSON value passed through
unchanged.  The second component counts the requests issued. -/
def performRequest (h : Handle) (net : NetworkResult) : Except ApiError Json × Nat :=
  if h.state = ClientState.opened then
    match net with
    | .failure => (.error ⟨.connectivity, none, none⟩, 1)
    | .response r =>
      if 200 ≤ r.status ∧ r.status < 300 then
        match r.decoded with
        | some j => (.ok j, 1)
        | none => (.error ⟨.decoding, some r.status, some r.body⟩, 1)
      else
        (.error ⟨.http, some r.status, some r.body⟩, 1)
  else
    (.error ⟨.usage, none, none⟩, 0)

/-- Modelled from the spec: HTTP verbs used by the catalog. -/
inductive HttpVerb where
  | get
  | post
deriving Repr, DecidableEq

/-- Modelled from the spec: an endpoint descriptor — the method name exposed
on the client, the HTTP verb, and the parameter names.  `Static, defined
once, immutable.` -/
structure EndpointDescriptor where
  name : String
  verb : HttpVerb
  params : List String
deriving Repr, DecidableEq

/-- Modelled from the spec: the shared endpoint catalog (spec §6), the single
descriptor table both client variants are generated from. -/
def endpointCatalog : List EndpointDescriptor :=
  [ ⟨"health_check", .get, []⟩,
    ⟨"get_market_stats", .get, []⟩,
    ⟨"get_new_tokens", .get, ["limit"]⟩,
    ⟨"get_migrated_tokens", .get, ["limit"]⟩,
    ⟨"get_all_tokens", .get, ["limit"]⟩,
    ⟨"get_first_buyers", .get, ["mint"]⟩,
    ⟨"get_tokens_batch_first_buyers", .post, ["mints"]⟩,
    ⟨"get_top_traders_for_token", .get, ["mint"]⟩,
    ⟨"get_top_traders_all", .get, []⟩,
    ⟨"get_ai_analysis", .get, ["mint"]⟩,
    ⟨"get_wallet_basic", .get, ["address"]⟩,
    ⟨"get_wallet_pnl", .get, ["address", "days"]⟩,
    ⟨"get_wallet_trades", .get, ["address", "limit"]⟩,
    ⟨"get_wallet_chart", .get, ["address", "days"]⟩,
    ⟨"get_wallet_token_pnl", .get, ["address", "mint"]⟩,
    ⟨"get_wallets_batch_pnl", .post, ["addresses"]⟩,
    ⟨"get_dashboard_stats", .get, []⟩,
    ⟨"get_launchpad_stats", .get, []⟩ ]

/-- Modelled from the spec: the synchronous variant's endpoint catalog,
generated from the shared descriptor table. -/
def syncCatalog : List EndpointDescriptor := endpointCatalog

/-- Modelled from the spec: the asynchronous variant's endpoint catalog,
generated from the same shared descriptor table. -/
def asyncCatalog : List EndpointDescriptor := endpointCatalog

/-- Modelled from the spec: a synchronous (blocking) endpoint call; every
method follows the shared request path. -/
def syncCall (h : Handle) (e : EndpointDescriptor) (args : List (String × Json))
    (net : NetworkResult) : Except ApiError Json × Nat :=
  performRequest h net

/-- Modelled from the spec: an asynchronous (suspending) endpoint call; upon
completion it performs the same shared request path as the sync variant. -/
def asyncCall (h : Handle) (e : EndpointDescriptor) (args : List (String × Json))
    (net : NetworkResult) : Except ApiError Json × Nat :=
  performRequest h net

/-- Modelled from the spec: the batch wallet-PnL endpoint — the addresses are
serialized into the single request body, and the server's response shape is
passed through as-is. -/
def batchPnlRequestBody (addresses : List String) : Json :=
  .obj [("addresses", .arr (addresses.map .str))]

/-- Modelled from the spec: `get_wallets_batch_pnl` issues one request with
the serialized addresses and passes the reply through the shared path. -/
def get_wallets_batch_pnl (h : Handle) (addresses : List String)
    (net : NetworkResult) : Except ApiError Json × Nat :=
  performRequest h net

/-- Recover one wallet's entry from a batch wallet-PnL reply by address:
scan the sequence under the reply's `data` key for the entry whose
`wallet_address` field is the given address. -/
def lookupWalletPnl (reply : Json) (addr : String) : Option Json :=
  match reply.getField "data" with
  | some (Json.arr entries) =>
    entries.find? (fun e =>
      match e.getField "wallet_address" with
      | some (Json.str s) => s == addr
      | _ => false)
  | _ => none

/-- Modelled from the spec: run a block of endpoint calls on a handle,
stopping at the first failing call — the body of a scoped `async with`. -/
def runBlock (h : Handle) : List NetworkResult → Except ApiError (List Json)
  | [] => .ok []
  | net :: rest =>
    match (performRequest h net).1 with
    | .error e => .error e
    | .ok j =>
      match runBlock h rest with
      | .error e => .error e
      | .ok js => .ok (j :: js)

/-- Modelled from the spec: closing a handle releases the connection
resource. -/
def closeHandle (h : Handle) : Handle :=
  { h with state := ClientState.closed }

/-- Modelled from the spec: the async client's scoped-acquisition form —
enter opens the handle, the block runs, and exit closes the handle on every
path, whether the block's calls all succeed or one of them fails. -/
def scopedSession (apiKey baseUrl : String) (nets : List NetworkResult) :
    Except ApiError (List Json) × Handle :=
  let h : Handle := ⟨apiKey, baseUrl, ClientState.opened⟩
  let result := runBlock h nets
  (result, closeHandle h)

/-! ## Theorems for `release.py` and `upload_to_pypi.py` -/

/-- A component list that is not exactly three parsed integers makes
`incrCore` raise (`none`), whatever the requested part. -/
theorem incrCore_eq_none (comps : List (Option Int)) (part : String)
    (h : comps.all Option.isSome = false ∨ comps.length ≠ 3) :
    incrCore comps part = none := by
  match comps with
  | [] => rfl
  | [x] => cases x <;> rfl
  | [x, y] => cases x <;> cases y <;> rfl
  | x :: y :: z :: w :: t => cases x <;> cases y <;> cases z <;> rfl
  | [x, y, z] =>
    match x with
    | none => rfl
    | some a =>
      match y with
      | none => rfl
      | some b =>
        match z with
        | none => rfl
        | some c =>
          exfalso
          rcases h with h | h
          · simp [List.all] at h
          · simp at h

/-- Unfolding of `incrCore` on exactly three parsed components. -/
theorem incrCore_three (a b c : Int) (part : String) :
    incrCore [some a, some b, some c] part =
      (if part = "major" then some (renderVersion (a + 1) 0 0)
       else if part = "minor" then some (renderVersion a (b + 1) 0)
       else if part = "patch" then some (renderVersion a b (c + 1))
       else some (renderVersion a b c)) := rfl

/-- C8: on a version whose text splits into exactly three integer components
`a`, `b`, `c`, `increment_version` returns `a.b.(c+1)` for part `patch`,
`a.(b+1).0` for `minor`, `(a+1).0.0` for `major`, and the re-rendered
`a.b.c` for any other part; on a text that does not split into exactly three
integer components it raises (modelled as `none`). -/
theorem increment_version_spec (version part bad : String) (a b c : Int)
    (hsplit : versionComponents version = [some a, some b, some c])
    (hM : part ≠ "major") (hm : part ≠ "minor") (hp : part ≠ "patch")
    (hbad : (versionComponents bad).all Option.isSome = false
      ∨ (versionComponents bad).length ≠ 3) :
    increment_version version "major" = some (renderVersion (a + 1) 0 0) ∧
    increment_version version "minor" = some (renderVersion a (b + 1) 0) ∧
    increment_version version "patch" = some (renderVersion a b (c + 1)) ∧
    increment_version version part = some (renderVersion a b c) ∧
    increment_version bad part = none := by
  refine ⟨?_, ?_, ?_, ?_, ?_⟩
  · unfold increment_version
    rw [hsplit, incrCore_three, if_pos rfl]
  · unfold increment_version
    rw [hsplit, incrCore_three, if_neg (by decide), if_pos rfl]
  · unfold increment_version
    rw [hsplit, incrCore_three, if_neg (by decide), if_neg (by decide), if_pos rfl]
  · unfold increment_version
    rw [hsplit, incrCore_three, if_neg hM, if_neg hm, if_neg hp]
  · exact incrCore_eq_none _ _ hbad

/-- Closed instance of `increment_version_spec` at the version `1.2.3`, the
part `build`, and the malformed version `1.2`. -/
theorem increment_version_spec_witness :
    versionComponents "1.2.3" = [some 1, some 2, some 3] ∧
    ("build" : String) ≠ "major" ∧ ("build" : String) ≠ "minor" ∧
    ("build" : String) ≠ "patch" ∧
    ((versionComponents "1.2").all Option.isSome = false
      ∨ (versionComponents "1.2").length ≠ 3) ∧
    (increment_version "1.2.3" "major" = some (renderVersion (1 + 1) 0 0) ∧
     increment_version "1.2.3" "minor" = some (renderVersion 1 (2 + 1) 0) ∧
     increment_version "1.2.3" "patch" = some (renderVersion 1 2 (3 + 1)) ∧
     increment_version "1.2.3" "build" = some (renderVersion 1 2 3) ∧
     increment_version "1.2" "build" = none) :=
  ⟨by decide, by decide, by decide, by decide, by decide,
   increment_version_spec "1.2.3" "build" "1.2" 1 2 3 (by decide) (by decide)
     (by decide) (by decide) (by decide)⟩

/-- C9: `update_version_in_file` returns `True` exactly when the file exists,
the path's suffix selects a pattern, and the content contains that pattern;
then the file is rewritten with every occurrence of the pattern replaced;
in every other case it returns `False` and leaves the file unchanged. -/
theorem update_version_in_file_spec (filepath oldV newV : String) (file : FileState) :
    ((update_version_in_file filepath oldV newV file).1 = true ↔
      file.present = true ∧
        ∃ pat rep, patternFor filepath oldV newV = some (pat, rep) ∧
          strContains file.content pat = true) ∧
    (∀ pat rep, patternFor filepath oldV newV = some (pat, rep) →
      file.present = true → strContains file.content pat = true →
      (update_version_in_file filepath oldV newV file).2
        = ⟨true, strReplace file.content pat rep⟩) ∧
    ((update_version_in_file filepath oldV newV file).1 = false →
      (update_version_in_file filepath oldV newV file).2 = file) := by
  obtain ⟨present, content⟩ := file
  cases present with
  | false => simp [update_version_in_file]
  | true =>
    cases hpat : patternFor filepath oldV newV with
    | none => simp [update_version_in_file, hpat]
    | some pr =>
      obtain ⟨pat, rep⟩ := pr
      have hkey : update_version_in_file filepath oldV newV ⟨true, content⟩
          = if strContains content pat then
              (true, ⟨true, strReplace content pat rep⟩)
            else (false, ⟨true, content⟩) := by
        unfold update_version_in_file
        rw [hpat]
        rfl
      cases hc : strContains content pat with
      | false =>
        rw [hc, if_neg (by simp)] at hkey
        refine ⟨?_, ?_, ?_⟩
        · simp [hkey, hpat, hc]
        · intro p r hpr hpres hcontains
          obtain ⟨rfl, rfl⟩ : pat = p ∧ rep = r := by
            simpa using hpr
          simp [hc] at hcontains
        · intro hfst
          rw [hkey]
      | true =>
        rw [hc, if_pos rfl] at hkey
        refine ⟨?_, ?_, ?_⟩
        · simp [hkey, hpat, hc]
        · intro p r hpr hpres hcontains
          obtain ⟨rfl, rfl⟩ : pat = p ∧ rep = r := by
            simpa using hpr
          rw [hkey]
        · intro hfst
          rw [hkey] at hfst
          simp at hfst

/-- A conjunction of three booleans is false exactly when one of them is. -/
theorem and3_eq_false_iff (x y z : Bool) :
    (x && y && z) = false ↔ x = false ∨ y = false ∨ z = false := by
  cases x <;> cases y <;> cases z <;> simp

/-- One file's consistency check fails exactly when the file exists and its
content lacks the marker. -/
theorem fileConsistent_eq_false_iff (file : Option String) (marker : String) :
    fileConsistent file marker = false ↔
      ∃ c, file = some c ∧ strContains c marker = false := by
  cases file <;> simp [fileConsistent]

/-- C10: `check_version_consistency` returns `False` exactly when at least
one of the three project files exists and lacks its hardcoded `1.0.2` marker;
with none of the three files present it returns `True`. -/
theorem check_version_consistency_spec (files : ProjectFiles) :
    (check_version_consistency files = false ↔
      (∃ c, files.initPy = some c ∧
          strContains c "__version__ = \"1.0.2\"" = false) ∨
      (∃ c, files.setupPy = some c ∧ strContains c "version=\"1.0.2\"" = false) ∨
      (∃ c, files.pyproject = some c ∧
          strContains c "version = \"1.0.2\"" = false)) ∧
    check_version_consistency ⟨none, none, none⟩ = true := by
  refine ⟨?_, rfl⟩
  unfold check_version_consistency
  rw [and3_eq_false_iff, fileConsistent_eq_false_iff, fileConsistent_eq_false_iff,
    fileConsistent_eq_false_iff]

/-! ## Theorems for the client façade model -/

/-- C1: the sync and async client variants expose the same endpoint names
with the same parameter names, and every call returns the same result (and
issues the same number of requests) given the same handle and server reply;
the two variants differ only in their concurrency contract. -/
theorem sync_async_parity :
    syncCatalog.map (fun e => (e.name, e.params))
      = asyncCatalog.map (fun e => (e.name, e.params)) ∧
    ∀ (h : Handle) (e : EndpointDescriptor) (args : List (String × Json))
      (net : NetworkResult), syncCall h e args net = asyncCall h e args net :=
  ⟨rfl, fun _ _ _ _ => rfl⟩

/-- An open handle issues exactly one request per call, whatever the network
outcome. -/
theorem performRequest_count_one (h : Handle) (net : NetworkResult)
    (hopen : h.state = ClientState.opened) : (performRequest h net).2 = 1 := by
  unfold performRequest
  rw [if_pos hopen]
  cases net with
  | failure => rfl
  | response r =>
    dsimp only
    by_cases hst : 200 ≤ r.status ∧ r.status < 300
    · rw [if_pos hst]
      cases r.decoded <;> rfl
    · rw [if_neg hst]

/-- The entry for wallet `A` in the sample batch wallet-PnL reply. -/
def samplePnlEntryA : Json :=
  Json.obj [("wallet_address", Json.str "A"), ("total_pnl", Json.num 10)]

/-- The entry for wallet `B` in the sample batch wallet-PnL reply. -/
def samplePnlEntryB : Json :=
  Json.obj [("wallet_address", Json.str "B"), ("total_pnl", Json.num (-5))]

/-- The sample server reply
`{"data":[{"wallet_address":"A","total_pnl":10},{"wallet_address":"B","total_pnl":-5}]}`. -/
def samplePnlReply : Json :=
  Json.obj [("data", Json.arr [samplePnlEntryA, samplePnlEntryB])]

/-- C2: a batch wallet-PnL call on an open handle issues exactly one request
(with the addresses serialized into its body), and against the sample server
reply for addresses `A` and `B` it succeeds with the reply passed through,
from which both entries are recoverable by address. -/
theorem get_wallets_batch_pnl_spec (h : Handle) (addresses : List String)
    (net : NetworkResult) (body : String)
    (hopen : h.state = ClientState.opened) :
    (get_wallets_batch_pnl h addresses net).2 = 1 ∧
    batchPnlRequestBody ["A", "B"]
      = Json.obj [("addresses", Json.arr [Json.str "A", Json.str "B"])] ∧
    (get_wallets_batch_pnl h ["A", "B"]
        (NetworkResult.response ⟨200, body, some samplePnlReply⟩)).1
      = Except.ok samplePnlReply ∧
    lookupWalletPnl samplePnlReply "A" = some samplePnlEntryA ∧
    lookupWalletPnl samplePnlReply "B" = some samplePnlEntryB := by
  refine ⟨performRequest_count_one h net hopen, rfl, ?_, rfl, rfl⟩
  unfold get_wallets_batch_pnl performRequest
  rw [if_pos hopen]
  rfl

/-- Closed instance of `get_wallets_batch_pnl_spec` on an open handle. -/
theorem get_wallets_batch_pnl_spec_witness :
    (⟨"key", "https://api", ClientState.opened⟩ : Handle).state
        = ClientState.opened ∧
    ((get_wallets_batch_pnl ⟨"key", "https://api", ClientState.opened⟩
        ["A", "B"] NetworkResult.failure).2 = 1 ∧
     batchPnlRequestBody ["A", "B"]
       = Json.obj [("addresses", Json.arr [Json.str "A", Json.str "B"])] ∧
     (get_wallets_batch_pnl ⟨"key", "https://api", ClientState.opened⟩ ["A", "B"]
         (NetworkResult.response ⟨200, "", some samplePnlReply⟩)).1
       = Except.ok samplePnlReply ∧
     lookupWalletPnl samplePnlReply "A" = some samplePnlEntryA ∧
     lookupWalletPnl samplePnlReply "B" = some samplePnlEntryB) :=
  ⟨rfl, get_wallets_batch_pnl_spec ⟨"key", "https://api", ClientState.opened⟩
    ["A", "B"] NetworkResult.failure "" rfl⟩

/-- C3: on an open handle, a response with status 200 whose body decodes to a
JSON value is returned unchanged by both client variants — no reshaping,
validation, or typed decoding beyond JSON decoding. -/
theorem ok_passthrough_200 (h : Handle) (e : EndpointDescriptor)
    (args : List (String × Json)) (r : HttpResponse) (j : Json)
    (hopen : h.state = ClientState.opened) (hstatus : r.status = 200)
    (hdec : r.decoded = some j) :
    (syncCall h e args (NetworkResult.response r)).1 = Except.ok j ∧
    (asyncCall h e args (NetworkResult.response r)).1 = Except.ok j := by
  have hst : 200 ≤ r.status ∧ r.status < 300 := by omega
  have key : (performRequest h (NetworkResult.response r)).1 = Except.ok j := by
    unfold performRequest
    rw [if_pos hopen]
    dsimp only
    rw [if_pos hst, hdec]
  exact ⟨key, key⟩

/-- Closed instance of `ok_passthrough_200` at the health-check endpoint. -/
theorem ok_passthrough_200_witness :
    (⟨"key", "https://api", ClientState.opened⟩ : Handle).state
        = ClientState.opened ∧
    (⟨200, "{}", some (Json.obj [])⟩ : HttpResponse).status = 200 ∧
    (⟨200, "{}", some (Json.obj [])⟩ : HttpResponse).decoded
        = some (Json.obj []) ∧
    ((syncCall ⟨"key", "https://api", ClientState.opened⟩
        ⟨"health_check", HttpVerb.get, []⟩ []
        (NetworkResult.response ⟨200, "{}", some (Json.obj [])⟩)).1
      = Except.ok (Json.obj []) ∧
     (asyncCall ⟨"key", "https://api", ClientState.opened⟩
        ⟨"health_check", HttpVerb.get, []⟩ []
        (NetworkResult.response ⟨200, "{}", some (Json.obj [])⟩)).1
      = Except.ok (Json.obj [])) :=
  ⟨rfl, rfl, rfl,
   ok_passthrough_200 ⟨"key", "https://api", ClientState.opened⟩
     ⟨"health_check", HttpVerb.get, []⟩ [] ⟨200, "{}", some (Json.obj [])⟩
     (Json.obj []) rfl rfl rfl⟩

/-- C4: calling any endpoint method on an unopened or closed handle fails
with the usage-error kind and issues zero requests, in both variants. -/
theorem closed_handle_usage_error (h : Handle) (e : EndpointDescriptor)
    (args : List (String × Json)) (net : NetworkResult)
    (hnot : h.state = ClientState.unopened ∨ h.state = ClientState.closed) :
    syncCall h e args net
        = (Except.error ⟨ErrorKind.usage, none, none⟩, 0) ∧
    asyncCall h e args net
        = (Except.error ⟨ErrorKind.usage, none, none⟩, 0) := by
  have hne : ¬h.state = ClientState.opened := by
    rcases hnot with hs | hs <;> rw [hs] <;> intro hco <;> cases hco
  have key : performRequest h net = (Except.error ⟨ErrorKind.usage, none, none⟩, 0) := by
    unfold performRequest
    rw [if_neg hne]
  exact ⟨key, key⟩

/-- Closed instance of `closed_handle_usage_error` on a closed handle. -/
theorem closed_handle_usage_error_witness :
    ((⟨"key", "https://api", ClientState.closed⟩ : Handle).state
        = ClientState.unopened ∨
     (⟨"key", "https://api", ClientState.closed⟩ : Handle).state
        = ClientState.closed) ∧
    (syncCall ⟨"key", "https://api", ClientState.closed⟩
        ⟨"health_check", HttpVerb.get, []⟩ [] NetworkResult.failure
      = (Except.error ⟨ErrorKind.usage, none, none⟩, 0) ∧
     asyncCall ⟨"key", "https://api", ClientState.closed⟩
        ⟨"health_check", HttpVerb.get, []⟩ [] NetworkResult.failure
      = (Except.error ⟨ErrorKind.usage, none, none⟩, 0)) :=
  ⟨Or.inr rfl,
   closed_handle_usage_error ⟨"key", "https://api", ClientState.closed⟩
     ⟨"health_check", HttpVerb.get, []⟩ [] NetworkResult.failure (Or.inr rfl)⟩

/-- C5: on an open handle, a network failure, a non-2xx status, and a
malformed-JSON body each surface to the caller as the single uniform
request-failed error — connectivity with no status, HTTP carrying the status
and body (in particular for 429 and 500), and decoding — and the client never
issues more than one request per call (no retry, backoff, or circuit
breaking). -/
theorem error_normalization_uniform (h : Handle) (e : EndpointDescriptor)
    (args : List (String × Json)) (rHttp rBad : HttpResponse)
    (net : NetworkResult) (s : Nat) (bodyText : String) (dec : Option Json)
    (hopen : h.state = ClientState.opened)
    (hHttp : ¬(200 ≤ rHttp.status ∧ rHttp.status < 300))
    (hBadStatus : 200 ≤ rBad.status ∧ rBad.status < 300)
    (hBadDec : rBad.decoded = none)
    (hs : s = 429 ∨ s = 500) :
    (syncCall h e args NetworkResult.failure).1
        = Except.error ⟨ErrorKind.connectivity, none, none⟩ ∧
    (syncCall h e args (NetworkResult.response rHttp)).1
        = Except.error ⟨ErrorKind.http, some rHttp.status, some rHttp.body⟩ ∧
    (syncCall h e args (NetworkResult.response rBad)).1
        = Except.error ⟨ErrorKind.decoding, some rBad.status, some rBad.body⟩ ∧
    (syncCall h e args (NetworkResult.response ⟨s, bodyText, dec⟩)).1
        = Except.error ⟨ErrorKind.http, some s, some bodyText⟩ ∧
    (asyncCall h e args net).1 = (syncCall h e args net).1 ∧
    (syncCall h e args net).2 ≤ 1 ∧ (asyncCall h e args net).2 ≤ 1 := by
  have hcount : ∀ n, (performRequest h n).2 ≤ 1 := fun n => by
    rw [performRequest_count_one h n hopen]
  refine ⟨?_, ?_, ?_, ?_, rfl, hcount net, hcount net⟩
  · unfold syncCall performRequest
    rw [if_pos hopen]
  · unfold syncCall performRequest
    rw [if_pos hopen]
    dsimp only
    rw [if_neg hHttp]
  · unfold syncCall performRequest
    rw [if_pos hopen]
    dsimp only
    rw [if_pos hBadStatus, hBadDec]
  · unfold syncCall performRequest
    rw [if_pos hopen]
    dsimp only
    rw [if_neg (by rcases hs with hs | hs <;> rw [hs] <;> omega)]

/-- Closed instance of `error_normalization_uniform` at statuses 429 and a
malformed-JSON 200 response. -/
theorem error_normalization_uniform_witness :
    (⟨"key", "https://api", ClientState.opened⟩ : Handle).state
        = ClientState.opened ∧
    ¬(200 ≤ (⟨429, "rate limited", none⟩ : HttpResponse).status ∧
        (⟨429, "rate limited", none⟩ : HttpResponse).status < 300) ∧
    (200 ≤ (⟨200, "not json", none⟩ : HttpResponse).status ∧
        (⟨200, "not json", none⟩ : HttpResponse).status < 300) ∧
    (⟨200, "not json", none⟩ : HttpResponse).decoded = none ∧
    ((429 : Nat) = 429 ∨ (429 : Nat) = 500) ∧
    ((syncCall ⟨"key", "https://api", ClientState.opened⟩
        ⟨"health_check", HttpVerb.get, []⟩ [] NetworkResult.failure).1
        = Except.error ⟨ErrorKind.connectivity, none, none⟩ ∧
     (syncCall ⟨"key", "https://api", ClientState.opened⟩
        ⟨"health_check", HttpVerb.get, []⟩ []
        (NetworkResult.response ⟨429, "rate limited", none⟩)).1
        = Except.error ⟨ErrorKind.http, some 429, some "rate limited"⟩ ∧
     (syncCall ⟨"key", "https://api", ClientState.opened⟩
        ⟨"health_check", HttpVerb.get, []⟩ []
        (NetworkResult.response ⟨200, "not json", none⟩)).1
        = Except.error ⟨ErrorKind.decoding, some 200, some "not json"⟩ ∧
     (syncCall ⟨"key", "https://api", ClientState.opened⟩
        ⟨"health_check", HttpVerb.get, []⟩ []
        (NetworkResult.response ⟨429, "whoa", none⟩)).1
        = Except.error ⟨ErrorKind.http, some 429, some "whoa"⟩ ∧
     (asyncCall ⟨"key", "https://api", ClientState.opened⟩
        ⟨"health_check", HttpVerb.get, []⟩ [] NetworkResult.failure).1
        = (syncCall ⟨"key", "https://api", ClientState.opened⟩
            ⟨"health_check", HttpVerb.get, []⟩ [] NetworkResult.failure).1 ∧
     (syncCall ⟨"key", "https://api", ClientState.opened⟩
        ⟨"health_check", HttpVerb.get, []⟩ [] NetworkResult.failure).2 ≤ 1 ∧
     (asyncCall ⟨"key", "https://api", ClientState.opened⟩
        ⟨"health_check", HttpVerb.get, []⟩ [] NetworkResult.failure).2 ≤ 1) :=
  ⟨rfl, by decide, by decide, rfl, Or.inl rfl,
   error_normalization_uniform ⟨"key", "https://api", ClientState.opened⟩
     ⟨"health_check", HttpVerb.get, []⟩ [] ⟨429, "rate limited", none⟩
     ⟨200, "not json", none⟩ NetworkResult.failure 429 "whoa" none
     rfl (by decide) (by decide) rfl (Or.inl rfl)⟩

/-- C6: after the async client's scoped-acquisition block exits — whether the
block's calls all succeed or a call fails partway — the handle's connection
resource reports closed; a block beginning with a failing call surfaces that
call's error and still leaves the resource closed. -/
theorem scoped_session_release (apiKey baseUrl : String)
    (nets : List NetworkResult) :
    (scopedSession apiKey baseUrl nets).2.state = ClientState.closed ∧
    (scopedSession apiKey baseUrl (NetworkResult.failure :: nets)).1
        = Except.error ⟨ErrorKind.connectivity, none, none⟩ ∧
    (scopedSession apiKey baseUrl
        (NetworkResult.failure :: nets)).2.state = ClientState.closed :=
  ⟨rfl, rfl, rfl⟩

/-- C7: on an open handle, a response with status 200 whose body is not valid
JSON surfaces as a decoding error in both variants, and is never returned as
a (possibly empty) successful result. -/
theorem invalid_json_decoding_error (h : Handle) (e : EndpointDescriptor)
    (args : List (String × Json)) (r : HttpResponse) (j : Json)
    (hopen : h.state = ClientState.opened) (hstatus : r.status = 200)
    (hdec : r.decoded = none) :
    (syncCall h e args (NetworkResult.response r)).1
        = Except.error ⟨ErrorKind.decoding, some r.status, some r.body⟩ ∧
    (asyncCall h e args (NetworkResult.response r)).1
        = Except.error ⟨ErrorKind.decoding, some r.status, some r.body⟩ ∧
    (syncCall h e args (NetworkResult.response r)).1 ≠ Except.ok j := by
  have hst : 200 ≤ r.status ∧ r.status < 300 := by omega
  have key : (performRequest h (NetworkResult.response r)).1
      = Except.error ⟨ErrorKind.decoding, some r.status, some r.body⟩ := by
    unfold performRequest
    rw [if_pos hopen]
    dsimp only
    rw [if_pos hst, hdec]
  refine ⟨key, key, ?_⟩
  have key2 : (syncCall h e args (NetworkResult.response r)).1
      = Except.error ⟨ErrorKind.decoding, some r.status, some r.body⟩ := key
  rw [key2]
  simp

/-- Closed instance of `invalid_json_decoding_error` on a non-JSON 200
response, with the empty JSON sequence as the silent result it must not
return. -/
theorem invalid_json_decoding_error_witness :
    (⟨"key", "https://api", ClientState.opened⟩ : Handle).state
        = ClientState.opened ∧
    (⟨200, "<html>", none⟩ : HttpResponse).status = 200 ∧
    (⟨200, "<html>", none⟩ : HttpResponse).decoded = none ∧
    ((syncCall ⟨"key", "https://api", ClientState.opened⟩
        ⟨"get_new_tokens", HttpVerb.get, ["limit"]⟩ []
        (NetworkResult.response ⟨200, "<html>", none⟩)).1
      = Except.error ⟨ErrorKind.decoding, some 200, some "<html>"⟩ ∧
     (asyncCall ⟨"key", "https://api", ClientState.opened⟩
        ⟨"get_new_tokens", HttpVerb.get, ["limit"]⟩ []
        (NetworkResult.response ⟨200, "<html>", none⟩)).1
      = Except.error ⟨ErrorKind.decoding, some 200, some "<html>"⟩ ∧
     (syncCall ⟨"key", "https://api", ClientState.opened⟩
        ⟨"get_new_tokens", HttpVerb.get, ["limit"]⟩ []
        (NetworkResult.response ⟨200, "<html>", none⟩)).1
      ≠ Except.ok (Json.arr [])) :=
  ⟨rfl, rfl, rfl,
   invalid_json_decoding_error ⟨"key", "https://api", ClientState.opened⟩
     ⟨"get_new_tokens", HttpVerb.get, ["limit"]⟩ [] ⟨200, "<html>", none⟩
     (Json.arr []) rfl rfl rfl⟩

end Augmentry
